import Mathlib

/-!
Shallow embedding of the order-assembly and tax-computation core of the
B2B wholesale POS extension, together with theorems checking the
specification's claims against it.

Sources embedded here:
 * `validateQuantityRules`, `validatePONumber` (utils module)
 * `useTaxCalculation` (reactive tax hook: region rate table, exempt
   short-circuit, tax-included/excluded math)
 * the modal's `orderSummary`, `goToNextScreen`, navigation button guards,
   `createB2BOrder` precondition gate and payment-terms retry,
 * `isSurchargeItem` / `getSurchargeType`, `updateItemQuantity`.

Money amounts are modelled as exact rationals (the source computes in
JavaScript numbers with no mid-calculation rounding); JavaScript
truthiness of `0`, `""`, `undefined` is made explicit at each use site.
-/

namespace B2B

/-! ## Quantity-rule validation (utils: `validateQuantityRules`) -/

structure QuantityRules where
  minQuantity : Nat
  maxQuantity : Option Nat
  increment : Option Nat
deriving Repr, DecidableEq

structure OrderItem where
  productId : String
  name : String
  quantity : Nat
deriving Repr, DecidableEq

structure ValidationResult where
  isValid : Bool
  errors : List String
  warnings : List String
deriving Repr, DecidableEq

/-- Lookup in the `Record<string, QuantityRules>` map (JS object access). -/
def lookupRule (rules : List (String × QuantityRules)) (pid : String) :
    Option QuantityRules :=
  (rules.find? (fun e => e.1 == pid)).map (·.2)

/-- `rules.maxQuantity && item.quantity > rules.maxQuantity`:
the guard is skipped when `maxQuantity` is absent or `0` (JS falsy). -/
def maxQuantityViolated (q : Nat) : Option Nat → Bool
  | some m => !(m == 0) && decide (q > m)
  | none => false

/-- `rules.increment && item.quantity % rules.increment !== 0`:
the guard is skipped when `increment` is absent or `0` (JS falsy).
Note the source checks `item.quantity % rules.increment`, not
`(item.quantity - rules.minQuantity) % rules.increment`. -/
def incrementViolated (q : Nat) : Option Nat → Bool
  | some i => !(i == 0) && !(q % i == 0)
  | none => false

/-- The error messages pushed for one item that has a rule. -/
def itemRuleErrors (item : OrderItem) (r : QuantityRules) : List String :=
  (if item.quantity < r.minQuantity then
    [item.name ++ ": Minimum quantity is " ++ toString r.minQuantity]
   else []) ++
  (if maxQuantityViolated item.quantity r.maxQuantity then
    [item.name ++ ": Maximum quantity is " ++
      toString (r.maxQuantity.getD 0)]
   else []) ++
  (if incrementViolated item.quantity r.increment then
    [item.name ++ ": Quantity must be in increments of " ++
      toString (r.increment.getD 0)]
   else [])

/-- The `items.forEach` loop collecting errors in item order. -/
def collectQuantityErrors (rules : List (String × QuantityRules)) :
    List OrderItem → List String
  | [] => []
  | item :: rest =>
    (match lookupRule rules item.productId with
     | none => []
     | some r => itemRuleErrors item r) ++ collectQuantityErrors rules rest

/-- utils `validateQuantityRules`: validates each item against its rule;
`isValid` is `errors.length === 0`, `warnings` stays empty. -/
def validateQuantityRules (items : List OrderItem)
    (rules : List (String × QuantityRules)) : ValidationResult :=
  let errors := collectQuantityErrors rules items
  { isValid := errors.length == 0, errors := errors, warnings := [] }

/-- The error condition exactly as the claim states it (spec wording):
error iff `quantity < minQuantity`, or `maxQuantity` is set and
`quantity > maxQuantity`, or `increment` is set and
`(quantity - minQuantity) % increment != 0`. -/
def claimErrorCond (q : Nat) (r : QuantityRules) : Bool :=
  decide (q < r.minQuantity) ||
  (match r.maxQuantity with
   | some m => decide (q > m)
   | none => false) ||
  (match r.increment with
   | some i => !((q - r.minQuantity) % i == 0)
   | none => false)

/-! ## Checkout screens and navigation (modal: `goToNextScreen`,
`goToPreviousScreen`, and the buttons that invoke them) -/

inductive Screen where
  | customer
  | location
  | cart
  | quantity
  | productDetail
  | delivery
  | confirmation
deriving Repr, DecidableEq

/-- The `screenFlow` map inside `goToNextScreen`; `none` for screens the
map has no entry for (`product-detail`, `confirmation`). -/
def screenFlowNext (s : Screen) (quantityValid : Bool) : Option Screen :=
  match s with
  | .customer => some .location
  | .location => some .cart
  | .cart => some (if quantityValid then .delivery else .quantity)
  | .quantity => some .delivery
  | .delivery => some .confirmation
  | _ => none

/-- `goToNextScreen`: set the mapped screen when there is one, else stay. -/
def goToNextScreen (s : Screen) (quantityValid : Bool) : Screen :=
  (screenFlowNext s quantityValid).getD s

/-- The `screenFlow` map inside `goToPreviousScreen`. -/
def screenFlowPrev (s : Screen) (quantityValid : Bool) : Option Screen :=
  match s with
  | .location => some .customer
  | .cart => some .location
  | .quantity => some .cart
  | .delivery => some (if quantityValid then .cart else .quantity)
  | .confirmation => some .delivery
  | _ => none

/-- Inputs of the `isDisabled` guards on the navigation buttons. -/
structure NavContext where
  quantityValid : Bool
  cartNonempty : Bool
  companySelected : Bool
  customerSelected : Bool
deriving Repr, DecidableEq

/-- Whether the button wired to `goToNextScreen` on screen `s` is enabled:
location: `!(!selectedCompany || !selectedCustomer)`;
cart: `!(cartItems.length === 0 || !quantityValidation.isValid)`;
quantity: `!(!quantityValidation.isValid)`; no such button elsewhere. -/
def nextButtonEnabled (s : Screen) (ctx : NavContext) : Bool :=
  match s with
  | .location => ctx.companySelected && ctx.customerSelected
  | .cart => ctx.cartNonempty && ctx.quantityValid
  | .quantity => ctx.quantityValid
  | _ => false

/-- Pressing the forward-navigation button: a disabled button fires no
transition, an enabled one runs `goToNextScreen`. -/
def pressNextButton (s : Screen) (ctx : NavContext) : Screen :=
  if nextButtonEnabled s ctx then goToNextScreen s ctx.quantityValid else s

/-! ## Tax engine and totals (`useTaxCalculation` hook, modal
`orderSummary` and the order-totals record built in `createB2BOrder`) -/

structure TCartItem where
  productId : String
  quantity : Nat
  price : ℚ
deriving Repr, DecidableEq

/-- `b2bPricing[item.productId]?.price` as an optional contextual price. -/
def priceLookup (pricing : List (String × ℚ)) (pid : String) : Option ℚ :=
  (pricing.find? (fun e => e.1 == pid)).map (·.2)

/-- `b2bPricing[item.productId]?.price || item.price`: the contextual
price when present and nonzero (JS `||` treats `0` as falsy), else the
item's base price. -/
def effectivePrice (pricing : List (String × ℚ)) (it : TCartItem) : ℚ :=
  match priceLookup pricing it.productId with
  | some p => if p = 0 then it.price else p
  | none => it.price

/-- `cartItems.reduce((sum, item) => sum + item.quantity * price, 0)`. -/
def cartSubtotal (items : List TCartItem) (pricing : List (String × ℚ)) : ℚ :=
  items.foldl (fun s it => s + (it.quantity : ℚ) * effectivePrice pricing it) 0

structure TaxData where
  rate : ℚ
  amount : ℚ
  title : String
  isIncluded : Bool
  shippingTaxable : Bool
deriving Repr, DecidableEq

structure StoreTaxSettings where
  taxesIncluded : Bool
  taxShipping : Bool
  countryCode : String
deriving Repr, DecidableEq

structure Address where
  country : String
  province : String
deriving Repr, DecidableEq

/-- The static region table of `calculateEnhancedTax` (country switch with
province subcases and defaults; unmapped country gives rate 0 / "Tax"). -/
def regionRate (country province : String) : ℚ × String :=
  if country = "US" then
    if province = "CA" then (875/10000, "CA Sales Tax")
    else if province = "NY" then (8/100, "NY Sales Tax")
    else if province = "TX" then (625/10000, "TX Sales Tax")
    else if province = "FL" then (6/100, "FL Sales Tax")
    else if province = "WA" then (65/1000, "WA Sales Tax")
    else if province = "OR" then (0, "OR Sales Tax")
    else (7/100, "US Sales Tax")
  else if country = "CA" then
    if province = "BC" then (12/100, "BC HST")
    else if province = "ON" then (13/100, "ON HST")
    else if province = "AB" then (5/100, "AB GST")
    else if province = "QC" then (14975/100000, "QC GST+QST")
    else (10/100, "Canada Tax")
  else if country = "GB" then (20/100, "UK VAT")
  else if country = "AU" then (10/100, "AU GST")
  else (0, "Tax")

/-- The tax data set when the exempt short-circuit fires. -/
def exemptTaxData : TaxData :=
  { rate := 0, amount := 0, title := "Tax Exempt",
    isIncluded := false, shippingTaxable := false }

/-- `calculateEnhancedTax`: missing location, missing store settings or an
exempt customer short-circuit to the exempt data, otherwise the region
rate/title plus the store's included/shipping flags. -/
def calculateEnhancedTax (loc : Option Address) (st : Option StoreTaxSettings)
    (customerTaxExempt : Bool) : TaxData :=
  match loc, st with
  | some a, some s =>
    if customerTaxExempt then exemptTaxData
    else
      { rate := (regionRate a.country a.province).1, amount := 0,
        title := (regionRate a.country a.province).2,
        isIncluded := s.taxesIncluded, shippingTaxable := s.taxShipping }
  | _, _ => exemptTaxData

structure TaxCalcResult where
  taxData : TaxData
  taxAmount : ℚ
  shippingTaxAmount : ℚ
  subtotal : ℚ
  finalTotal : ℚ
deriving Repr, DecidableEq

/-- The `useTaxCalculation` hook in steady state: tax data from
`calculateEnhancedTax`, then the derived amounts and totals exactly as the
hook computes them. -/
def useTaxCalculation (items : List TCartItem) (pricing : List (String × ℚ))
    (loc : Option Address) (st : Option StoreTaxSettings)
    (customerTaxExempt : Bool) (deliveryFee : ℚ) : TaxCalcResult :=
  let td := calculateEnhancedTax loc st customerTaxExempt
  let subtotal := cartSubtotal items pricing
  let taxAmount :=
    if td.isIncluded then subtotal - subtotal / (1 + td.rate)
    else subtotal * td.rate
  let shippingTaxAmount :=
    if td.shippingTaxable && !customerTaxExempt then
      if td.isIncluded then deliveryFee - deliveryFee / (1 + td.rate)
      else deliveryFee * td.rate
    else 0
  let finalTotal :=
    if td.isIncluded then subtotal + deliveryFee
    else subtotal + deliveryFee + taxAmount + shippingTaxAmount
  { taxData := td, taxAmount := taxAmount,
    shippingTaxAmount := shippingTaxAmount, subtotal := subtotal,
    finalTotal := finalTotal }

structure OrderSummary where
  subtotal : ℚ
  deliveryFee : ℚ
  surchargeAmount : ℚ
  totalFees : ℚ
  finalTotal : ℚ
deriving Repr, DecidableEq

/-- The modal's reactive `orderSummary` memo:
`totalFees = deliveryFee + surchargeAmount`,
`finalTotal = subtotal + totalFees`. -/
def orderSummary (items : List TCartItem) (pricing : List (String × ℚ))
    (deliveryFee surchargeAmount : ℚ) : OrderSummary :=
  let subtotal := cartSubtotal items pricing
  { subtotal := subtotal, deliveryFee := deliveryFee,
    surchargeAmount := surchargeAmount,
    totalFees := deliveryFee + surchargeAmount,
    finalTotal := subtotal + (deliveryFee + surchargeAmount) }

structure B2BOrderTotals where
  subtotal : ℚ
  deliveryFee : ℚ
  surcharge : ℚ
  tax : ℚ
  total : ℚ
deriving Repr, DecidableEq

/-- The totals recorded on the `B2BOrder` built in the modal's
`createB2BOrder` success path: subtotal and final total from
`orderSummary`, `tax: isB2B ? 0 : 0` (always 0, tax handled externally). -/
def b2bOrderTotals (items : List TCartItem) (pricing : List (String × ℚ))
    (deliveryFee surchargeAmount : ℚ) : B2BOrderTotals :=
  let os := orderSummary items pricing deliveryFee surchargeAmount
  { subtotal := os.subtotal, deliveryFee := deliveryFee,
    surcharge := surchargeAmount, tax := 0, total := os.finalTotal }

/-! ## PO-number validation and the submission precondition gate
(utils `validatePONumber`; `createB2BOrder` entry checks) -/

/-- JS `String.prototype.trim`: strip leading and trailing whitespace
(structural definition on the character list). -/
def jsTrim (s : String) : String :=
  String.mk
    (((s.data.dropWhile Char.isWhitespace).reverse.dropWhile
        Char.isWhitespace).reverse)

/-- utils `validatePONumber`: `/^[A-Z0-9]{3,20}$/i` — between 3 and 20
characters, each an ASCII letter or digit. -/
def validatePONumber (po : String) : Bool :=
  decide (3 ≤ po.length) && decide (po.length ≤ 20) &&
  po.data.all (fun c => c.isAlpha || c.isDigit)

/-- The pieces of checkout-session state `createB2BOrder` could touch
before contacting the gateway. -/
structure SessionState where
  currentScreen : Screen
  validationErrors : List String
  orderCreated : Bool
deriving Repr, DecidableEq

/-- The precondition gate at the top of `createB2BOrder`: each failed
check records its validation error and returns; only when every check
passes does the function go on to issue the draft-order-create request
(second component `true`). -/
def createB2BOrderGate (customerSelected locationSelected : Bool)
    (poNumber : String) (validation : ValidationResult)
    (s : SessionState) : SessionState × Bool :=
  if !customerSelected || !locationSelected then
    ({ s with validationErrors :=
        [" Please select both customer and company location to proceed"] },
     false)
  else if poNumber = "" || jsTrim poNumber = "" then
    ({ s with validationErrors :=
        [" Purchase Order Number is required for B2B orders"] },
     false)
  else if !validatePONumber poNumber then
    ({ s with validationErrors :=
        [" Invalid PO number format. Please use alphanumeric characters"] },
     false)
  else if !validation.isValid then
    ({ s with validationErrors := validation.errors }, false)
  else (s, true)

/-! ## Draft-order creation and the payment-terms retry
(`createB2BOrder`, request/response part) -/

/-- Substring test (JS `String.prototype.includes`). -/
def containsSubstr (s pat : String) : Bool :=
  (List.range (s.length + 1)).any
    (fun i => pat.toList.isPrefixOf (s.toList.drop i))

/-- `error.message.includes('payment terms') ||
error.message.includes('Payment terms')`. -/
def mentionsPaymentTerms (msg : String) : Bool :=
  containsSubstr msg "payment terms" || containsSubstr msg "Payment terms"

/-- What the pipeline observes of one gateway response. -/
structure GwResponse where
  ok : Bool
  gqlErrors : Bool
  userErrors : List String
  hasDraftOrder : Bool
deriving Repr, DecidableEq

/-- `hasPaymentTermsError`: some user error mentioning payment terms. -/
def hasPaymentTermsError (r : GwResponse) : Bool :=
  r.userErrors.any mentionsPaymentTerms

/-- One draft-order-create request: the shared input plus whether the
payment-terms field is attached. -/
structure GwRequest where
  input : String
  withPaymentTerms : Bool
deriving Repr, DecidableEq

structure CreationTrace where
  requests : List GwRequest
  outcome : Except String Unit
deriving Repr

/-- The error checks run on the final response, in source order. -/
def checkCreationResult (r : GwResponse) : Except String Unit :=
  if r.gqlErrors then .error "GraphQL errors"
  else if !r.userErrors.isEmpty then .error "Draft order creation failed"
  else if !r.hasDraftOrder then .error "No draft order returned from API"
  else .ok ()

/-- The creation section of `createB2BOrder`: first request carries
payment terms iff some were selected; a non-ok HTTP response throws; when
the response has a payment-terms user error and terms were selected, one
retry is issued with the same input minus the payment terms; then the
error checks run on whichever response is current. `r0` and `r1` are the
gateway's responses to the first and (potential) second request. -/
def createDraftOrderPipeline (inp : String) (selectedPaymentTerms : Bool)
    (r0 r1 : GwResponse) : CreationTrace :=
  let req0 : GwRequest := { input := inp, withPaymentTerms := selectedPaymentTerms }
  if !r0.ok then { requests := [req0], outcome := .error "HTTP error" }
  else if hasPaymentTermsError r0 && selectedPaymentTerms then
    let req1 : GwRequest := { input := inp, withPaymentTerms := false }
    if !r1.ok then
      { requests := [req0, req1], outcome := .error "HTTP error" }
    else
      { requests := [req0, req1], outcome := checkCreationResult r1 }
  else { requests := [req0], outcome := checkCreationResult r0 }

/-! ## Tax line-item attributes (`createB2BOrder`, tax line push) -/

/-- JavaScript `Math.round` on the (nonnegative) values used here. -/
def jsRound (x : ℚ) : ℤ := ⌊x + 1/2⌋

/-- The `Rate` attribute value: backtick-interpolation of
`Math.round(taxData.rate * 100)` followed by `%`. -/
def percentString (rate : ℚ) : String :=
  toString (jsRound (rate * 100)) ++ "%"

/-- The custom attributes pushed on the product-tax line item. -/
def taxLineAttributes (rate : ℚ) (locationName : String) :
    List (String × String) :=
  [("Type", "Tax"), ("Rate", percentString rate), ("Location", locationName)]

/-! ## Surcharge classification (`isSurchargeItem`, `getSurchargeType`) -/

/-- A cart line as the surcharge helpers see it: possibly-absent name and
title, possibly-absent custom-attribute bag. -/
structure SCartItem where
  name : Option String
  title : Option String
  customAttributes : Option (List (String × String))
deriving Repr, DecidableEq

/-- JS `a || b` on strings: `a` unless it is absent or empty. -/
def jsOrStr (a : Option String) (b : String) : String :=
  match a with
  | some s => if s = "" then b else s
  | none => b

/-- `item.name || item.title || ''`. -/
def displayName (it : SCartItem) : String :=
  jsOrStr it.name (jsOrStr it.title "")

/-- JS `String.prototype.toLowerCase` (ASCII; structural definition on
the character list). -/
def jsToLower (s : String) : String :=
  String.mk (s.data.map Char.toLower)

/-- `item.customAttributes.find(attr => attr.key === key)?.value`. -/
def findAttr (it : SCartItem) (key : String) : Option String :=
  match it.customAttributes with
  | some attrs => (attrs.find? (fun a => a.1 == key)).map (·.2)
  | none => none

def surchargeKeywords : List String :=
  ["surcharge", "fee", "charge", "delivery", "handling", "rush"]

/-- `isSurchargeItem`: explicit `Type == "Surcharge"` attribute, else a
surcharge keyword inside the lower-cased name/title. -/
def isSurchargeItem (it : SCartItem) : Bool :=
  (match it.customAttributes with
   | some attrs => attrs.any (fun a => a.1 == "Type" && a.2 == "Surcharge")
   | none => false) ||
  surchargeKeywords.any
    (fun kw => containsSubstr (jsToLower (displayName it)) kw)

/-- `getSurchargeType`: `null` for non-surcharge items; the value of a
`Type` attribute when one exists; else keyword inference on the
lower-cased name. -/
def getSurchargeType (it : SCartItem) : Option String :=
  if !isSurchargeItem it then none
  else
    match findAttr it "Type" with
    | some v => some v
    | none =>
      let n := jsToLower (displayName it)
      some (if containsSubstr n "delivery" then "Delivery Fee"
            else if containsSubstr n "rush" then "Rush Order Fee"
            else if containsSubstr n "handling" then "Handling Fee"
            else "Custom Surcharge")

/-- The keyword fallback stated in the claim's own words, for comparison
with the embedded source. -/
def specKeywordType (lowerName : String) : String :=
  if containsSubstr lowerName "delivery" then "Delivery Fee"
  else if containsSubstr lowerName "rush" then "Rush Order Fee"
  else if containsSubstr lowerName "handling" then "Handling Fee"
  else "Custom Surcharge"

/-! ## Cart quantity updates (`useCart.updateItemQuantity`) -/

structure UCartItem where
  id : String
  name : String
  price : ℚ
  quantity : Int
deriving Repr, DecidableEq

/-- `updateItemQuantity`: map over the items; the item whose id matches
gets quantity `Math.max(1, newQuantity)`, the rest are returned as-is. -/
def updateItemQuantity (items : List UCartItem) (itemId : String)
    (newQuantity : Int) : List UCartItem :=
  items.map (fun item =>
    if item.id == itemId then { item with quantity := max 1 newQuantity }
    else item)

/-! ## Theorems -/

/-- Helper: the per-item error list is empty iff none of the three checks
fires. -/
theorem itemRuleErrors_eq_nil_iff (item : OrderItem) (r : QuantityRules) :
    itemRuleErrors item r = [] ↔
      (¬ item.quantity < r.minQuantity ∧
       maxQuantityViolated item.quantity r.maxQuantity = false ∧
       incrementViolated item.quantity r.increment = false) := by
  by_cases h1 : item.quantity < r.minQuantity <;>
    cases h2 : maxQuantityViolated item.quantity r.maxQuantity <;>
    cases h3 : incrementViolated item.quantity r.increment <;>
    simp [itemRuleErrors, h1, h2, h3]

/-- Helper: the collected error list is empty iff every item with a rule
passes all three checks. -/
theorem collectQuantityErrors_eq_nil_iff
    (rules : List (String × QuantityRules)) (items : List OrderItem) :
    collectQuantityErrors rules items = [] ↔
      ∀ item ∈ items, ∀ r, lookupRule rules item.productId = some r →
        (¬ item.quantity < r.minQuantity ∧
         maxQuantityViolated item.quantity r.maxQuantity = false ∧
         incrementViolated item.quantity r.increment = false) := by
  induction items with
  | nil => simp [collectQuantityErrors]
  | cons item rest ih =>
    cases h : lookupRule rules item.productId with
    | none => simp [collectQuantityErrors, h, ih]
    | some r =>
      simp only [collectQuantityErrors, h, List.append_eq_nil, ih,
        List.mem_cons, itemRuleErrors_eq_nil_iff]
      constructor
      · rintro ⟨hr, hrest⟩ it hit r' hr'
        rcases hit with rfl | hit
        · rw [h] at hr'; cases hr'; exact hr
        · exact hrest it hit r' hr'
      · intro hall
        exact ⟨by
          have := hall item (Or.inl rfl) r h
          exact this,
          fun it hit r' hr' => hall it (Or.inr hit) r' hr'⟩

/-- Claim C1 (amended): `validateQuantityRules` reports an error for an
item with a rule exactly when `quantity < minQuantity`, or `maxQuantity`
is set (and nonzero) and `quantity > maxQuantity`, or `increment` is set
(and nonzero) and `quantity % increment != 0` — the increment check is
relative to zero, not to `minQuantity`; a quantity that is a whole
multiple of the increment always passes the increment check. -/
theorem validateQuantityRules_amended (items : List OrderItem)
    (rules : List (String × QuantityRules)) :
    ((validateQuantityRules items rules).isValid = true ↔
      ∀ item ∈ items, ∀ r, lookupRule rules item.productId = some r →
        (¬ item.quantity < r.minQuantity ∧
         maxQuantityViolated item.quantity r.maxQuantity = false ∧
         incrementViolated item.quantity r.increment = false)) ∧
    (∀ k i : Nat, incrementViolated (k * i) (some i) = false) := by
  constructor
  · have : (validateQuantityRules items rules).isValid = true ↔
        collectQuantityErrors rules items = [] := by
      simp [validateQuantityRules, List.length_eq_zero]
    rw [this, collectQuantityErrors_eq_nil_iff]
  · intro k i
    simp [incrementViolated, Nat.mul_mod_left]

/-- Witness for the amended claim C1: a concrete cart where every check
passes, so validation succeeds. -/
theorem validateQuantityRules_amended_witness :
    (validateQuantityRules [⟨"p1", "Widget", 6⟩]
      [("p1", ⟨2, some 10, some 3⟩)]).isValid = true :=
  (validateQuantityRules_amended [⟨"p1", "Widget", 6⟩]
      [("p1", ⟨2, some 10, some 3⟩)]).1.mpr (by decide)

/-- Counterexample to claim C1 as stated: with `minQuantity = 2` and
`increment = 3`, a quantity of 2 (equal to `minQuantity`, i.e.
`minQuantity` plus zero increments) must pass per the claim
(`(2 - 2) % 3 == 0`), yet the source flags an increment error because it
computes `2 % 3 != 0`. -/
theorem validateQuantityRules_claim_counterexample :
    claimErrorCond 2 ⟨2, none, some 3⟩ = false ∧
    (validateQuantityRules [⟨"p1", "Widget", 2⟩]
      [("p1", ⟨2, none, some 3⟩)]).isValid = false ∧
    (validateQuantityRules [⟨"p1", "Widget", 2⟩]
      [("p1", ⟨2, none, some 3⟩)]).errors ≠ [] := by
  decide

/-- Claim C2: the checkout navigation never advances past an unmet
quantity gate: `goToNextScreen` sends `cart` to `quantity` (not
`delivery`) when validation is invalid, and pressing the forward button
moves `quantity` to `delivery` exactly when validation is valid (the
button is disabled otherwise), and moves `cart` to `delivery` exactly
when validation is valid and the cart is nonempty. -/
theorem checkout_validation_gating :
    goToNextScreen .cart false = .quantity ∧
    (∀ ctx : NavContext,
      pressNextButton .quantity ctx = .delivery ↔ ctx.quantityValid = true) ∧
    (∀ ctx : NavContext,
      pressNextButton .cart ctx = .delivery ↔
        (ctx.quantityValid = true ∧ ctx.cartNonempty = true)) := by
  refine ⟨rfl, ?_, ?_⟩ <;>
    · rintro ⟨qv, cn, comp, cust⟩
      cases qv <;> cases cn <;>
        simp [pressNextButton, nextButtonEnabled, goToNextScreen,
          screenFlowNext]

/-- Claim C3: every totals computation satisfies the OrderTotals
invariant `finalTotal = subtotal + deliveryFee + surcharge +
(isIncluded ? 0 : taxAmount + shippingTaxAmount)` with the subtotal the
sum of quantity times contextual-price-else-base-price: the tax hook's
totals (which carry no surcharge component) and the modal's order totals
(whose tax component is always 0) both satisfy it. -/
theorem orderTotals_invariant (items : List TCartItem)
    (pricing : List (String × ℚ)) (loc : Option Address)
    (st : Option StoreTaxSettings) (exempt : Bool) (fee surcharge : ℚ) :
    ((useTaxCalculation items pricing loc st exempt fee).finalTotal =
      (useTaxCalculation items pricing loc st exempt fee).subtotal + fee +
        (if (useTaxCalculation items pricing loc st exempt fee).taxData.isIncluded
         then 0
         else (useTaxCalculation items pricing loc st exempt fee).taxAmount +
              (useTaxCalculation items pricing loc st exempt fee).shippingTaxAmount) ∧
     (useTaxCalculation items pricing loc st exempt fee).subtotal =
       cartSubtotal items pricing) ∧
    ((b2bOrderTotals items pricing fee surcharge).total =
      (b2bOrderTotals items pricing fee surcharge).subtotal +
      (b2bOrderTotals items pricing fee surcharge).deliveryFee +
      (b2bOrderTotals items pricing fee surcharge).surcharge +
      (b2bOrderTotals items pricing fee surcharge).tax ∧
     (b2bOrderTotals items pricing fee surcharge).subtotal =
       cartSubtotal items pricing) := by
  refine ⟨⟨?_, ?_⟩, ?_, ?_⟩
  · cases h : (calculateEnhancedTax loc st exempt).isIncluded <;>
      simp [useTaxCalculation, h, add_assoc]
  · simp [useTaxCalculation]
  · simp [b2bOrderTotals, orderSummary]; ring
  · simp [b2bOrderTotals, orderSummary]

/-- Claim C4: a tax-exempt customer always gets `taxAmount = 0`,
`shippingTaxAmount = 0`, rate 0 and title "Tax Exempt", for every cart,
pricing map, region and fee input. -/
theorem exempt_customer_zero_tax (items : List TCartItem)
    (pricing : List (String × ℚ)) (loc : Option Address)
    (st : Option StoreTaxSettings) (fee : ℚ) :
    (useTaxCalculation items pricing loc st true fee).taxAmount = 0 ∧
    (useTaxCalculation items pricing loc st true fee).shippingTaxAmount = 0 ∧
    (useTaxCalculation items pricing loc st true fee).taxData.rate = 0 ∧
    (useTaxCalculation items pricing loc st true fee).taxData.title =
      "Tax Exempt" := by
  have h : calculateEnhancedTax loc st true = exemptTaxData := by
    cases loc <;> cases st <;> rfl
  simp [useTaxCalculation, h, exemptTaxData]

/-- Claim C5: for a non-exempt customer with a resolved location and
store settings, with `base` the cart subtotal, `rate` the region rate and
`fee` the delivery fee: tax-excluded mode gives `tax = base * rate` and
`shippingTax = taxShipping ? fee * rate : 0`; tax-included mode gives
`tax = base - base / (1 + rate)` and
`shippingTax = taxShipping ? fee - fee / (1 + rate) : 0`. -/
theorem tax_mode_formulas (items : List TCartItem)
    (pricing : List (String × ℚ)) (a : Address) (s : StoreTaxSettings)
    (fee : ℚ) :
    (useTaxCalculation items pricing (some a) (some s) false fee).taxAmount =
      (if s.taxesIncluded then
        cartSubtotal items pricing -
          cartSubtotal items pricing /
            (1 + (regionRate a.country a.province).1)
       else cartSubtotal items pricing *
         (regionRate a.country a.province).1) ∧
    (useTaxCalculation items pricing (some a) (some s) false fee).shippingTaxAmount =
      (if s.taxShipping then
        (if s.taxesIncluded then
          fee - fee / (1 + (regionRate a.country a.province).1)
         else fee * (regionRate a.country a.province).1)
       else 0) := by
  cases hI : s.taxesIncluded <;> cases hS : s.taxShipping <;>
    simp [useTaxCalculation, calculateEnhancedTax, hI, hS]

/-- Helper: an invalid `validateQuantityRules` result carries at least
one error message. -/
theorem validateQuantityRules_invalid_errors_ne_nil
    (items : List OrderItem) (rules : List (String × QuantityRules)) :
    (validateQuantityRules items rules).isValid = false →
    (validateQuantityRules items rules).errors ≠ [] := by
  simp [validateQuantityRules, List.length_eq_zero]

/-- Claim C6: `createB2BOrder` issues the draft-order-create request
exactly when a customer and a location are selected, the PO number is
non-blank and alphanumeric of length 3–20, and quantity validation is
valid; on any failed check it records a validation error and returns
without contacting the gateway, leaving screen and created-order state
unchanged. -/
theorem createB2BOrder_preconditions (c l : Bool) (po : String)
    (items : List OrderItem) (rules : List (String × QuantityRules))
    (s : SessionState) :
    ((createB2BOrderGate c l po (validateQuantityRules items rules) s).2 = true ↔
      (c = true ∧ l = true ∧ po ≠ "" ∧ jsTrim po ≠ "" ∧
       validatePONumber po = true ∧
       (validateQuantityRules items rules).isValid = true)) ∧
    ((createB2BOrderGate c l po (validateQuantityRules items rules) s).2 = false →
      ((createB2BOrderGate c l po (validateQuantityRules items rules) s).1.currentScreen =
         s.currentScreen ∧
       (createB2BOrderGate c l po (validateQuantityRules items rules) s).1.orderCreated =
         s.orderCreated ∧
       (createB2BOrderGate c l po (validateQuantityRules items rules) s).1.validationErrors ≠ [])) := by
  have herr := validateQuantityRules_invalid_errors_ne_nil items rules
  unfold createB2BOrderGate
  split_ifs with h1 h2 h3 h4
  · simp only [Bool.or_eq_true, Bool.not_eq_true'] at h1
    rcases h1 with h | h <;> simp_all
  · simp only [Bool.or_eq_true, decide_eq_true_eq] at h2
    rcases h2 with h | h <;> simp_all
  · simp_all
  · simp_all
  · simp_all

/-- Witness for claim C6: with everything selected, a well-formed PO
number and a passing validation, the gate lets the request go out. -/
theorem createB2BOrder_preconditions_witness :
    (createB2BOrderGate true true "PO123"
      (validateQuantityRules [] []) ⟨.delivery, [], false⟩).2 = true :=
  (createB2BOrder_preconditions true true "PO123" [] []
      ⟨.delivery, [], false⟩).1.mpr (by decide)

/-- Claim C7: the creation step retries exactly once, with the same input
minus the payment terms, precisely when the first response arrived
(HTTP ok) carrying a payment-terms user error while payment terms had
been requested; in every other case a single request is made and the
outcome succeeds iff the response is ok with no GraphQL errors, no user
errors and a draft order present. -/
theorem paymentTerms_retry (inp : String) (pt : Bool) (r0 r1 : GwResponse) :
    ((createDraftOrderPipeline inp pt r0 r1).requests =
      if r0.ok && hasPaymentTermsError r0 && pt then
        [{ input := inp, withPaymentTerms := true },
         { input := inp, withPaymentTerms := false }]
      else [{ input := inp, withPaymentTerms := pt }]) ∧
    ((r0.ok && hasPaymentTermsError r0 && pt) = false →
      ((createDraftOrderPipeline inp pt r0 r1).outcome = .ok () ↔
        (r0.ok = true ∧ r0.gqlErrors = false ∧ r0.userErrors = [] ∧
         r0.hasDraftOrder = true))) := by
  constructor
  · cases h0 : r0.ok <;> cases hp : pt <;>
      cases he : hasPaymentTermsError r0 <;> cases hr : r1.ok <;>
      simp [createDraftOrderPipeline, h0, hp, he, hr]
  · intro hno
    have hsplit : r0.ok = false ∨ hasPaymentTermsError r0 = false ∨ pt = false := by
      cases h0 : r0.ok <;> cases he : hasPaymentTermsError r0 <;>
        cases hp : pt <;> simp_all
    have hone : (createDraftOrderPipeline inp pt r0 r1).outcome =
        (if !r0.ok then Except.error "HTTP error"
         else checkCreationResult r0) := by
      cases h0 : r0.ok <;> cases he : hasPaymentTermsError r0 <;>
        cases hp : pt <;> simp_all [createDraftOrderPipeline]
    rw [hone]
    cases h0 : r0.ok
    · simp
    · cases hg : r0.gqlErrors <;> cases hd : r0.hasDraftOrder <;>
        cases hu : r0.userErrors <;>
        simp [checkCreationResult, hg, hd, hu]

/-- Witness for claim C7: a clean first response with no payment terms
requested makes exactly one request and succeeds. -/
theorem paymentTerms_retry_witness :
    (createDraftOrderPipeline "input" false
      ⟨true, false, [], true⟩ ⟨true, false, [], true⟩).outcome =
      .ok () := by
  have h := paymentTerms_retry "input" false
    ⟨true, false, [], true⟩ ⟨true, false, [], true⟩
  exact (h.2 (by decide)).mpr (by decide)

/-- Claim C8 (evaluation at the failing input): the product-tax line item
does carry `Type="Tax"` and `Location`, but for the region rate 0.0875
(the table's own CA entry) the `Rate` attribute renders as "9%" — the
source rounds `rate * 100` to an integer — not as the fraction-preserving
"8.75%" the claim and the repository documentation state. -/
theorem taxLine_rate_rendering :
    taxLineAttributes (875/10000) "Company Location" =
      [("Type", "Tax"), ("Rate", "9%"), ("Location", "Company Location")] ∧
    percentString (875/10000) ≠ "8.75%" := by
  have h9 : jsRound ((875 : ℚ)/10000 * 100) = 9 := by
    unfold jsRound
    norm_num [Int.floor_eq_iff]
  have hs : percentString (875/10000) = "9%" := by
    unfold percentString
    rw [h9]
    decide
  refine ⟨?_, ?_⟩
  · unfold taxLineAttributes
    rw [hs]
  · rw [hs]
    decide

/-- Counterexample to claim C9 as stated: a keyword-classified surcharge
("special fee") carrying an explicit `SurchargeType` attribute valued
"Rush Order Fee" is typed "Custom Surcharge" by the source, which
consults only a `Type` attribute and never `SurchargeType`. -/
theorem getSurchargeType_claim_counterexample :
    isSurchargeItem
      ⟨some "special fee", none,
       some [("SurchargeType", "Rush Order Fee")]⟩ = true ∧
    findAttr
      ⟨some "special fee", none,
       some [("SurchargeType", "Rush Order Fee")]⟩ "SurchargeType" =
      some "Rush Order Fee" ∧
    getSurchargeType
      ⟨some "special fee", none,
       some [("SurchargeType", "Rush Order Fee")]⟩ =
      some "Custom Surcharge" := by
  decide

/-- Claim C9 (amended): for every cart line classified as a surcharge,
`getSurchargeType` returns the value of an explicit `Type` attribute when
one is present (a `SurchargeType` attribute is never consulted);
otherwise it infers from the lower-cased name, checking "delivery", then
"rush", then "handling", else "Custom Surcharge". -/
theorem getSurchargeType_amended (it : SCartItem)
    (h : isSurchargeItem it = true) :
    getSurchargeType it =
      some (match findAttr it "Type" with
            | some v => v
            | none => specKeywordType (jsToLower (displayName it))) := by
  unfold getSurchargeType specKeywordType
  rw [h]
  cases findAttr it "Type" <;> simp

/-- Witness for the amended claim C9: "rush delivery" contains both
"rush" and "delivery", and the "delivery" check wins because it comes
first. -/
theorem getSurchargeType_amended_witness :
    getSurchargeType ⟨some "rush delivery", none, none⟩ =
      some "Delivery Fee" :=
  (getSurchargeType_amended ⟨some "rush delivery", none, none⟩
      (by decide)).trans (by decide)

/-- Claim C10: `updateItemQuantity` preserves the cart's length and
order, sets the matched item's quantity to `max 1 newQuantity` (hence
never below 1) while keeping its other fields, and returns every other
item unchanged. -/
theorem updateItemQuantity_spec (items : List UCartItem) (itemId : String)
    (q : Int) :
    ((updateItemQuantity items itemId q).length = items.length) ∧
    (∀ (i : Nat) (h1 : i < items.length)
        (h2 : i < (updateItemQuantity items itemId q).length),
      ((items.get ⟨i, h1⟩).id = itemId →
        ((updateItemQuantity items itemId q).get ⟨i, h2⟩ =
          { items.get ⟨i, h1⟩ with quantity := max 1 q } ∧
         1 ≤ ((updateItemQuantity items itemId q).get ⟨i, h2⟩).quantity)) ∧
      ((items.get ⟨i, h1⟩).id ≠ itemId →
        (updateItemQuantity items itemId q).get ⟨i, h2⟩ =
          items.get ⟨i, h1⟩)) := by
  constructor
  · simp [updateItemQuantity]
  · intro i h1 h2
    have key : (updateItemQuantity items itemId q).get ⟨i, h2⟩ =
        if ((items.get ⟨i, h1⟩).id == itemId) = true then
          { items.get ⟨i, h1⟩ with quantity := max 1 q }
        else items.get ⟨i, h1⟩ := by
      simp [updateItemQuantity]
    constructor
    · intro hid
      have hb : ((items.get ⟨i, h1⟩).id == itemId) = true := by
        simpa using hid
      rw [key, if_pos hb]
      exact ⟨rfl, le_max_left 1 q⟩
    · intro hid
      have hb : ¬(((items.get ⟨i, h1⟩).id == itemId) = true) := by
        simpa using hid
      rw [key, if_neg hb]

/-- Witness for claim C10: a request for quantity −7 on item "a" clamps
to 1 and leaves item "b" untouched. -/
theorem updateItemQuantity_spec_witness :
    (updateItemQuantity
      [⟨"a", "Widget", 5, 3⟩, ⟨"b", "Gadget", 2, 4⟩] "a" (-7)).get
        ⟨0, by decide⟩ = ⟨"a", "Widget", 5, 1⟩ ∧
    (updateItemQuantity
      [⟨"a", "Widget", 5, 3⟩, ⟨"b", "Gadget", 2, 4⟩] "a" (-7)).get
        ⟨1, by decide⟩ = ⟨"b", "Gadget", 2, 4⟩ := by
  have h := updateItemQuantity_spec
    [⟨"a", "Widget", 5, 3⟩, ⟨"b", "Gadget", 2, 4⟩] "a" (-7)
  refine ⟨?_, ?_⟩
  · exact ((h.2 0 (by decide) (by decide)).1 (by decide)).1.trans (by decide)
  · exact (h.2 1 (by decide) (by decide)).2 (by decide)

end B2B
